import Mathlib

/-!
Shallow embedding of `src/interview_agent.py` (a Streamlit front end for an
ElevenLabs conversational voice session).  The Streamlit session state is
modelled as an explicit record; each button / callback handler of the script
becomes a pure function from the state (plus the outcome of the external
provider calls, which may raise) to the new state together with the list of
UI messages surfaced to the operator.
-/

namespace InterviewAgent

/-- Chat roles used in `st.session_state.messages` entries. -/
inductive Role where
  | user
  | assistant
deriving DecidableEq

/-- One entry of `st.session_state.messages`: a dict with role and content. -/
structure ChatMessage where
  role : Role
  content : String
deriving DecidableEq

/-- Opaque stand-in for the `Conversation` object stored in
`st.session_state.conversation_obj`. -/
structure SessionHandle where
  id : Nat
deriving DecidableEq

/-- The Streamlit session state of the script: `messages`,
`conversation_active`, `conversation_obj`, `error_count`. -/
structure AppState where
  messages : List ChatMessage
  conversation_active : Bool
  conversation_obj : Option SessionHandle
  error_count : Nat
deriving DecidableEq

/-- Initial session state (lines 25-32 of the source). -/
def initialState : AppState :=
  { messages := [], conversation_active := false,
    conversation_obj := none, error_count := 0 }

/-- A message surfaced to the operator via `st.success` / `st.error` /
`st.warning` / `st.info`. -/
inductive UiMsg where
  | success (s : String)
  | error (s : String)
  | warning (s : String)
  | info (s : String)
deriving DecidableEq

/-- Outcome of the provider calls inside the start handler try-block
(client construction, `Conversation(...)` construction, `start_session()`):
either a fresh session handle, or an exception with message `e`. -/
inductive StartOutcome where
  | ok (h : SessionHandle)
  | exc (e : String)
deriving DecidableEq

/-- Outcome of `conversation_obj.end_session()` in the stop handler. -/
inductive StopOutcome where
  | ok
  | exc (e : String)
deriving DecidableEq

/-- Outcome of a single external call inside `RobustAudioInterface.stop`. -/
inductive StepOutcome where
  | ok
  | exc (e : String)
deriving DecidableEq

/-- The fixed "multiple failures" message of line 119 of the source. -/
def multiFailureMsg : UiMsg :=
  UiMsg.error "Multiple connection failures. Please check your audio device settings."

/-- Body of the start-button handler (source lines 74-119).  `credsPresent`
models the `if AGENT_ID and API_KEY` guard; `outcome` models whether the
provider calls inside the try-block succeed or raise.  The reset of
`error_count` to 0 (line 77) is the first statement of the try-block, so it
has already happened when an exception is caught. -/
def startHandler (st : AppState) (credsPresent : Bool) (outcome : StartOutcome) :
    AppState × List UiMsg :=
  if credsPresent then
    let st0 := { st with error_count := 0 }
    match outcome with
    | StartOutcome.ok h =>
        ({ st0 with conversation_obj := some h,
                    conversation_active := true },
         [UiMsg.success "🎙️ Voice conversation started!"])
    | StartOutcome.exc e =>
        let st1 := { st0 with error_count := st0.error_count + 1 }
        let msgs := [UiMsg.error
          ("Failed to start conversation (Attempt " ++
            toString st1.error_count ++ "): " ++ e)]
        if st1.error_count ≥ 3 then
          (st1, msgs ++ [multiFailureMsg])
        else
          (st1, msgs)
  else
    (st, [])

/-- Body of the stop-button handler (source lines 125-137).  The handler runs
only when `conversation_obj` is truthy; `outcome` models whether
`end_session()` succeeds or raises. -/
def stopHandler (st : AppState) (outcome : StopOutcome) : AppState × List UiMsg :=
  match st.conversation_obj with
  | some _ =>
      match outcome with
      | StopOutcome.ok =>
          ({ st with conversation_active := false, conversation_obj := none },
           [UiMsg.success "Voice conversation stopped."])
      | StopOutcome.exc e =>
          ({ st with conversation_active := false, conversation_obj := none },
           [UiMsg.warning ("Cleanup warning: " ++ e)])
  | none => (st, [])

/-- Body of the clear-chat-history handler (source lines 140-142). -/
def clearHandler (st : AppState) : AppState × List UiMsg :=
  ({ st with messages := [] }, [])

/-- The `on_user_transcript` callback (source lines 83-87).  `appendFault`
models an exception raised while appending (none = append succeeds). -/
def on_user_transcript (st : AppState) (transcript : String)
    (appendFault : Option String) : AppState × List UiMsg :=
  match appendFault with
  | none =>
      ({ st with messages :=
          st.messages ++ [{ role := Role.user, content := transcript }] }, [])
  | some e =>
      (st, [UiMsg.error ("Error processing user transcript: " ++ e)])

/-- The `on_agent_response` callback (source lines 89-93). -/
def on_agent_response (st : AppState) (response : String)
    (appendFault : Option String) : AppState × List UiMsg :=
  match appendFault with
  | none =>
      ({ st with messages :=
          st.messages ++ [{ role := Role.assistant, content := response }] }, [])
  | some e =>
      (st, [UiMsg.error ("Error processing agent response: " ++ e)])

/-- A single-quote character, used in the fallback acknowledgement string. -/
def sq : String := String.singleton (Char.ofNat 39)

/-- The canned assistant acknowledgement of source line 177:
`I received: (prompt in quotes). Start voice conversation for full capabilities!` -/
def fallbackAck (prompt : String) : String :=
  "I received: " ++ sq ++ prompt ++ sq ++
    ". Start voice conversation for full capabilities!"

/-- The text-fallback input handler (source lines 169-179).  The surrounding
`if not st.session_state.conversation_active` gate and the truthiness of the
walrus-assigned `prompt` are modelled as the two guards. -/
def chatInputHandler (st : AppState) (prompt : String) : AppState × List UiMsg :=
  if st.conversation_active = false then
    if prompt = "" then (st, [])
    else
      let st1 : AppState := { st with messages :=
        st.messages ++ [{ role := Role.user, content := prompt }] }
      ({ st1 with messages :=
        st1.messages ++
          [{ role := Role.assistant, content := fallbackAck prompt }] },
       [])
  else
    (st, [])

/-- The external cleanup calls `RobustAudioInterface.stop` can make:
`self.in_stream.stop_stream()`, `self.in_stream.close()`,
`self.out_stream.stop_stream()`, `self.out_stream.close()`,
`self.pa.terminate()`. -/
inductive CleanupCall where
  | inStop
  | inClose
  | outStop
  | outClose
  | paTerminate
deriving DecidableEq

/-- `RobustAudioInterface.stop` (source lines 36-55): three sequential
try-blocks.  `inPresent`, `outPresent`, `paPresent` model
`hasattr(self, ...) and self....` truthiness; the `StepOutcome` arguments
model whether each external call (`stop_stream`, `close`, `terminate`)
raises (a raise inside a try-block skips the rest of that block only).
Returns the trace of external calls actually attempted together with the
warnings surfaced. -/
def audioStop (inPresent outPresent paPresent : Bool)
    (oInStop oInClose oOutStop oOutClose oPaTerm : StepOutcome) :
    List CleanupCall × List UiMsg :=
  let b1 :=
    if inPresent then
      match oInStop with
      | StepOutcome.exc e =>
          ([CleanupCall.inStop],
           [UiMsg.warning ("Audio cleanup warning: " ++ e)])
      | StepOutcome.ok =>
          match oInClose with
          | StepOutcome.exc e =>
              ([CleanupCall.inStop, CleanupCall.inClose],
               [UiMsg.warning ("Audio cleanup warning: " ++ e)])
          | StepOutcome.ok =>
              ([CleanupCall.inStop, CleanupCall.inClose], ([] : List UiMsg))
    else ([], [])
  let b2 :=
    if outPresent then
      match oOutStop with
      | StepOutcome.exc e =>
          ([CleanupCall.outStop],
           [UiMsg.warning ("Audio output cleanup warning: " ++ e)])
      | StepOutcome.ok =>
          match oOutClose with
          | StepOutcome.exc e =>
              ([CleanupCall.outStop, CleanupCall.outClose],
               [UiMsg.warning ("Audio output cleanup warning: " ++ e)])
          | StepOutcome.ok =>
              ([CleanupCall.outStop, CleanupCall.outClose], ([] : List UiMsg))
    else ([], [])
  let b3 :=
    if paPresent then
      match oPaTerm with
      | StepOutcome.exc e =>
          ([CleanupCall.paTerminate],
           [UiMsg.warning ("PyAudio termination warning: " ++ e)])
      | StepOutcome.ok => ([CleanupCall.paTerminate], ([] : List UiMsg))
    else ([], [])
  (b1.1 ++ b2.1 ++ b3.1, b1.2 ++ b2.2 ++ b3.2)

/-- Consistency of `conversation_active` with `conversation_obj` (claim C4):
active iff a session handle is stored. -/
def consistent (st : AppState) : Prop :=
  st.conversation_active = true ↔ st.conversation_obj.isSome = true

instance (st : AppState) : Decidable (consistent st) := by
  unfold consistent; infer_instance


/-- Claim C1: three consecutive failing start() calls.  The code resets
`error_count` to 0 at the top of every attempt (source line 77), so after the
third failing call `error_count` is 1, not 3, and the distinct
"Multiple connection failures" warning (gated on `error_count >= 3`,
source line 118) is never surfaced. -/
theorem three_consecutive_start_failures :
    (startHandler (startHandler (startHandler initialState true
        (StartOutcome.exc "e1")).1 true
        (StartOutcome.exc "e2")).1 true
        (StartOutcome.exc "e3")).1.error_count = 1 ∧
    multiFailureMsg ∉ (startHandler initialState true (StartOutcome.exc "e1")).2 ∧
    multiFailureMsg ∉ (startHandler (startHandler initialState true
        (StartOutcome.exc "e1")).1 true (StartOutcome.exc "e2")).2 ∧
    multiFailureMsg ∉ (startHandler (startHandler (startHandler initialState true
        (StartOutcome.exc "e1")).1 true
        (StartOutcome.exc "e2")).1 true (StartOutcome.exc "e3")).2 := by
  decide

/-- Claim C2: for every stop() invocation on an active session, the resulting
state is inactive and the handle cleared, whether `end_session()` succeeds or
raises; a raise is surfaced as a warning only. -/
theorem stop_forces_inactive (st : AppState) (h : SessionHandle)
    (o : StopOutcome) (hobj : st.conversation_obj = some h) :
    (stopHandler st o).1.conversation_active = false ∧
    (stopHandler st o).1.conversation_obj = none ∧
    ∀ e, o = StopOutcome.exc e →
      (stopHandler st o).2 = [UiMsg.warning ("Cleanup warning: " ++ e)] := by
  cases o <;> simp [stopHandler, hobj]

/-- A concrete state with an active session, used to instantiate theorems. -/
def sampleActiveState : AppState :=
  { messages := [], conversation_active := true,
    conversation_obj := some { id := 0 }, error_count := 0 }

/-- Witness for `stop_forces_inactive` at a concrete active state with a
raising end-session call. -/
theorem stop_forces_inactive_witness :
    (stopHandler sampleActiveState (StopOutcome.exc "boom")).1.conversation_active
        = false ∧
    (stopHandler sampleActiveState (StopOutcome.exc "boom")).1.conversation_obj
        = none ∧
    (stopHandler sampleActiveState (StopOutcome.exc "boom")).2 =
      [UiMsg.warning ("Cleanup warning: " ++ "boom")] := by
  have h := stop_forces_inactive sampleActiveState { id := 0 }
    (StopOutcome.exc "boom") rfl
  exact ⟨h.1, h.2.1, h.2.2 "boom" rfl⟩

/-- Claim C8: clear() always yields an empty transcript, whatever the prior
contents. -/
theorem clear_empties_transcript (st : AppState) :
    (clearHandler st).1.messages = [] := rfl

/-- Claim C9: clear() touches only the transcript: the active flag, the
error count and the session handle are unchanged, and no messages are
surfaced. -/
theorem clear_preserves_session_state (st : AppState) :
    (clearHandler st).1.conversation_active = st.conversation_active ∧
    (clearHandler st).1.conversation_obj = st.conversation_obj ∧
    (clearHandler st).1.error_count = st.error_count ∧
    (clearHandler st).2 = [] := by
  simp [clearHandler]

/-- Claim C10: every start() invocation that reaches the handler body resets
`error_count` to 0 before attempting the session, so afterwards it is 0 on
success and 1 on failure, whatever its prior value. -/
theorem start_resets_error_count (st : AppState) (o : StartOutcome) :
    (startHandler st true o).1.error_count =
      (match o with
       | StartOutcome.ok _ => 0
       | StartOutcome.exc _ => 1) := by
  cases o <;> simp [startHandler]

set_option maxHeartbeats 3200000

/-- Claim C3: `RobustAudioInterface.stop` is best-effort and
non-short-circuiting: whatever combination of calls raises, the input-stream
block, the output-stream block and the terminate block are each attempted
exactly when their resource is present; every surfaced message is a warning;
and every raising call produces its warning. -/
theorem audio_stop_best_effort (ip op pp : Bool)
    (o1 o2 o3 o4 o5 : StepOutcome) :
    (CleanupCall.inStop ∈ (audioStop ip op pp o1 o2 o3 o4 o5).1 ↔ ip = true) ∧
    (CleanupCall.outStop ∈ (audioStop ip op pp o1 o2 o3 o4 o5).1 ↔ op = true) ∧
    (CleanupCall.paTerminate ∈ (audioStop ip op pp o1 o2 o3 o4 o5).1 ↔
      pp = true) ∧
    (CleanupCall.inClose ∈ (audioStop ip op pp o1 o2 o3 o4 o5).1 ↔
      ip = true ∧ o1 = StepOutcome.ok) ∧
    (CleanupCall.outClose ∈ (audioStop ip op pp o1 o2 o3 o4 o5).1 ↔
      op = true ∧ o3 = StepOutcome.ok) ∧
    (∀ w ∈ (audioStop ip op pp o1 o2 o3 o4 o5).2, ∃ s, w = UiMsg.warning s) ∧
    (∀ e, ip = true → o1 = StepOutcome.exc e →
      UiMsg.warning ("Audio cleanup warning: " ++ e) ∈
        (audioStop ip op pp o1 o2 o3 o4 o5).2) ∧
    (∀ e, ip = true → o1 = StepOutcome.ok → o2 = StepOutcome.exc e →
      UiMsg.warning ("Audio cleanup warning: " ++ e) ∈
        (audioStop ip op pp o1 o2 o3 o4 o5).2) ∧
    (∀ e, op = true → o3 = StepOutcome.exc e →
      UiMsg.warning ("Audio output cleanup warning: " ++ e) ∈
        (audioStop ip op pp o1 o2 o3 o4 o5).2) ∧
    (∀ e, op = true → o3 = StepOutcome.ok → o4 = StepOutcome.exc e →
      UiMsg.warning ("Audio output cleanup warning: " ++ e) ∈
        (audioStop ip op pp o1 o2 o3 o4 o5).2) ∧
    (∀ e, pp = true → o5 = StepOutcome.exc e →
      UiMsg.warning ("PyAudio termination warning: " ++ e) ∈
        (audioStop ip op pp o1 o2 o3 o4 o5).2) := by
  cases ip <;> cases op <;> cases pp <;>
    cases o1 <;> cases o2 <;> cases o3 <;> cases o4 <;> cases o5 <;>
    simp [audioStop]

set_option maxHeartbeats 200000

/-- Witness for `audio_stop_best_effort`: everything present, the
input-stream stop, the output-stream close and the terminate call all raise;
the later blocks are still attempted and every failure is warned. -/
theorem audio_stop_best_effort_witness :
    CleanupCall.outStop ∈
      (audioStop true true true (StepOutcome.exc "a") StepOutcome.ok
        StepOutcome.ok (StepOutcome.exc "b") (StepOutcome.exc "c")).1 ∧
    CleanupCall.paTerminate ∈
      (audioStop true true true (StepOutcome.exc "a") StepOutcome.ok
        StepOutcome.ok (StepOutcome.exc "b") (StepOutcome.exc "c")).1 ∧
    UiMsg.warning ("Audio cleanup warning: " ++ "a") ∈
      (audioStop true true true (StepOutcome.exc "a") StepOutcome.ok
        StepOutcome.ok (StepOutcome.exc "b") (StepOutcome.exc "c")).2 ∧
    UiMsg.warning ("Audio output cleanup warning: " ++ "b") ∈
      (audioStop true true true (StepOutcome.exc "a") StepOutcome.ok
        StepOutcome.ok (StepOutcome.exc "b") (StepOutcome.exc "c")).2 ∧
    UiMsg.warning ("PyAudio termination warning: " ++ "c") ∈
      (audioStop true true true (StepOutcome.exc "a") StepOutcome.ok
        StepOutcome.ok (StepOutcome.exc "b") (StepOutcome.exc "c")).2 := by
  have h := audio_stop_best_effort true true true (StepOutcome.exc "a")
    StepOutcome.ok StepOutcome.ok (StepOutcome.exc "b") (StepOutcome.exc "c")
  exact ⟨h.2.1.mpr rfl, h.2.2.1.mpr rfl,
    h.2.2.2.2.2.2.1 "a" rfl rfl,
    h.2.2.2.2.2.2.2.2.2.1 "b" rfl rfl rfl,
    h.2.2.2.2.2.2.2.2.2.2 "c" rfl rfl⟩

/-- Claim C4: the active/handle consistency invariant holds at the initial
state and is preserved by the start handler (success or failure, with or
without credentials), the stop handler (success or forced reset) and the
clear handler. -/
theorem session_consistency_preserved (st : AppState) (creds : Bool)
    (so : StartOutcome) (po : StopOutcome) (hc : consistent st) :
    consistent initialState ∧
    consistent (startHandler st creds so).1 ∧
    consistent (stopHandler st po).1 ∧
    consistent (clearHandler st).1 := by
  unfold consistent at *
  refine ⟨by decide, ?_, ?_, ?_⟩
  · cases creds <;> cases so <;> simp [startHandler, hc]
  · cases po <;> rcases hobj : st.conversation_obj with _ | h <;>
      simp [stopHandler, hobj, hc]
  · simpa [clearHandler] using hc

/-- Witness for `session_consistency_preserved` at a concrete consistent
active state. -/
theorem session_consistency_preserved_witness :
    consistent initialState ∧
    consistent (startHandler sampleActiveState true
      (StartOutcome.ok ⟨1⟩)).1 ∧
    consistent (stopHandler sampleActiveState StopOutcome.ok).1 ∧
    consistent (clearHandler sampleActiveState).1 :=
  session_consistency_preserved sampleActiveState true (StartOutcome.ok ⟨1⟩)
    StopOutcome.ok (by decide)

/-- Claim C5: `on_user_transcript` appends exactly one user message with the
given content and `on_agent_response` exactly one assistant message, leaving
the rest of the session state untouched; an append failure leaves the state
unchanged and surfaces an error without terminating the session. -/
theorem callbacks_append_exactly_one (st : AppState) (t r e : String) :
    (on_user_transcript st t none).1.messages =
      st.messages ++ [{ role := Role.user, content := t }] ∧
    (on_user_transcript st t none).1.conversation_active =
      st.conversation_active ∧
    (on_user_transcript st t none).1.conversation_obj = st.conversation_obj ∧
    (on_user_transcript st t none).1.error_count = st.error_count ∧
    (on_agent_response st r none).1.messages =
      st.messages ++ [{ role := Role.assistant, content := r }] ∧
    (on_agent_response st r none).1.conversation_active =
      st.conversation_active ∧
    (on_agent_response st r none).1.conversation_obj = st.conversation_obj ∧
    (on_agent_response st r none).1.error_count = st.error_count ∧
    (on_user_transcript st t (some e)).1 = st ∧
    (on_user_transcript st t (some e)).2 =
      [UiMsg.error ("Error processing user transcript: " ++ e)] ∧
    (on_agent_response st r (some e)).1 = st ∧
    (on_agent_response st r (some e)).2 =
      [UiMsg.error ("Error processing agent response: " ++ e)] := by
  simp [on_user_transcript, on_agent_response]

/-- A concrete inactive state recording one earlier start failure
(`error_count = 1`), reachable by a single failing start() from the initial
state. -/
def oneFailureState : AppState :=
  { messages := [], conversation_active := false,
    conversation_obj := none, error_count := 1 }

/-- Claim C6: evaluation of a failing start() at a state with a prior
failure on record.  The exception is caught, the failure message is
surfaced and the session stays inactive with no handle — but `error_count`
is not incremented: the handler first resets it to 0 (source line 77), so it
ends at 1 instead of the prior value plus one. -/
theorem failed_start_evaluation :
    (startHandler oneFailureState true (StartOutcome.exc "boom")).1.error_count
      = 1 ∧
    ¬ ((startHandler oneFailureState true
        (StartOutcome.exc "boom")).1.error_count =
      oneFailureState.error_count + 1) ∧
    (startHandler oneFailureState true
      (StartOutcome.exc "boom")).1.conversation_active = false ∧
    (startHandler oneFailureState true
      (StartOutcome.exc "boom")).1.conversation_obj = none ∧
    (startHandler oneFailureState true (StartOutcome.exc "boom")).2 =
      [UiMsg.error "Failed to start conversation (Attempt 1): boom"] := by
  decide

/-- Claim C7: while inactive, a nonempty fallback prompt appends exactly the
user message followed by the canned acknowledgement, leaving the session
state untouched; while active, the fallback path does nothing. -/
theorem text_fallback_behavior (st : AppState) (p : String)
    (hinact : st.conversation_active = false) (hne : p ≠ "") :
    (chatInputHandler st p).1.messages =
      st.messages ++ [{ role := Role.user, content := p },
        { role := Role.assistant, content := fallbackAck p }] ∧
    (chatInputHandler st p).1.conversation_active = st.conversation_active ∧
    (chatInputHandler st p).1.conversation_obj = st.conversation_obj ∧
    (chatInputHandler st p).1.error_count = st.error_count ∧
    ∀ st2 : AppState, st2.conversation_active = true →
      chatInputHandler st2 p = (st2, []) := by
  refine ⟨?_, ?_, ?_, ?_, ?_⟩
  · simp [chatInputHandler, hinact, hne]
  · simp [chatInputHandler, hinact, hne]
  · simp [chatInputHandler, hinact, hne]
  · simp [chatInputHandler, hinact, hne]
  · intro st2 h2
    simp [chatInputHandler, h2]

/-- Witness for `text_fallback_behavior` at the initial state with the
prompt "hi", plus the rejection of the same prompt at an active state. -/
theorem text_fallback_behavior_witness :
    (chatInputHandler initialState "hi").1.messages =
      [{ role := Role.user, content := "hi" },
        { role := Role.assistant, content := fallbackAck "hi" }] ∧
    (chatInputHandler initialState "hi").1.conversation_active = false ∧
    (chatInputHandler initialState "hi").1.error_count = 0 ∧
    chatInputHandler sampleActiveState "hi" = (sampleActiveState, []) := by
  have h := text_fallback_behavior initialState "hi" rfl (by decide)
  exact ⟨h.1, h.2.1, h.2.2.2.1, h.2.2.2.2 sampleActiveState rfl⟩

end InterviewAgent
